import Mathlib

/-!
Verification of the natural-language-to-SQL query generator, its SQL safety
validators, the query-execution layer and the sample-data manager of the
MS_AI_MVP settlement-analytics dashboard.

The Python sources are shallowly embedded: Python strings become `String`,
`str.upper`/`str.lower`/`str.strip` become explicit character-list maps,
the substring operator `in` becomes `pyContains`, fallible calls (the AI
model endpoint, the database engine) become explicit oracle parameters of
type `Option`/`Except`, and elapsed wall-clock time becomes an explicit
non-negative duration parameter.
-/

set_option maxRecDepth 2048

namespace MsAiMvp

/-! ## Python string primitives -/

/-- Python `str.upper()` restricted to the character repertoire of this
codebase (ASCII letters, digits, punctuation, Hangul, emoji): Lean's
`Char.toUpper` uppercases exactly the ASCII lowercase letters and leaves
every other character unchanged, which agrees with CPython on all
characters appearing in the embedded sources. -/
def pyUpper (s : String) : String :=
  String.mk (s.data.map Char.toUpper)

/-- Python `str.lower()`, same repertoire remark as `pyUpper`. -/
def pyLower (s : String) : String :=
  String.mk (s.data.map Char.toLower)

/-- The whitespace predicate used by `str.strip()` (space, tab, LF, CR —
the only whitespace characters appearing in the embedded strings). -/
def isWs (c : Char) : Bool :=
  c.isWhitespace

/-- Strip leading and trailing whitespace from a character list. -/
def stripList (l : List Char) : List Char :=
  (((l.dropWhile isWs).reverse.dropWhile isWs)).reverse

/-- Python `str.strip()`. -/
def pyStrip (s : String) : String :=
  String.mk (stripList s.data)

/-- Substring test on character lists: `containsSub p l` is true iff the
pattern `p` occurs contiguously in `l`. -/
def containsSub (p : List Char) : List Char → Bool
  | [] => p.isPrefixOf []
  | c :: t => p.isPrefixOf (c :: t) || containsSub p t

/-- Python `pat in s`. -/
def pyContains (s pat : String) : Bool :=
  containsSub pat.data s.data

/-- Python `s.startswith(pat)`. -/
def pyStartsWith (s pat : String) : Bool :=
  pat.data.isPrefixOf s.data

/-- Python `len(s)` (number of Unicode code points). -/
def pyLen (s : String) : Nat :=
  s.data.length

/-- Case-insensitive substring test, the reading of "contains K as a
case-insensitive substring" used by the claims: the uppercased keyword
occurs in the uppercased string. -/
def ciContains (s kw : String) : Bool :=
  pyContains (pyUpper s) kw

/-! ## The three SQL safety validators

`validate_sql` embeds `SQLGenerator._validate_sql` (sql_generator.py,
lines 767-816), the validator shared by the AI and rule-based generation
paths; `validate_query_safety` embeds
`DatabaseManager._validate_query_safety` (database_manager.py, lines
368-420); `validate_generated_sql` embeds
`OpenAISQLGenerator._validate_generated_sql`
(project/openai_sql_generator.py, lines 218-249).  Python `for` loops that
`return False` on the first offending element are rendered with
`List.any`; the `try/except` wrappers around pure string code are dropped
because the embedded bodies cannot raise. -/

def dangerous_keywords_gen : List String :=
  ["DROP", "DELETE", "INSERT", "UPDATE", "ALTER", "CREATE", "TRUNCATE",
   "EXEC", "EXECUTE"]

def dangerous_keywords_db : List String :=
  ["DROP", "DELETE", "INSERT", "UPDATE", "ALTER", "CREATE", "TRUNCATE",
   "EXEC", "EXECUTE", "MERGE", "BULK"]

def dangerous_keywords_openai : List String :=
  ["DROP", "DELETE", "INSERT", "UPDATE", "ALTER", "CREATE", "TRUNCATE"]

def allowed_tables : List String :=
  ["PY_NP_TRMN_RMNY_TXN", "PY_NP_SBSC_RMNY_TXN", "PY_DEPAZ_BAS"]

/-- Python `sql_query.upper().strip()`, the normalisation both validators
apply before the keyword checks. -/
def sqlUpper (s : String) : String :=
  pyStrip (pyUpper s)

/-- `SQLGenerator._validate_sql` (sql_generator.py:767-816). -/
def validate_sql (sql_query : String) : Bool :=
  if pyStrip sql_query = "" then false
  else if !(pyStartsWith (sqlUpper sql_query) "SELECT")
      && !(pyStartsWith (sqlUpper sql_query) "WITH") then
    false
  else if dangerous_keywords_gen.any (fun kw => pyContains (sqlUpper sql_query) kw) then
    false
  else if !(allowed_tables.any (fun t => pyContains sql_query t)) then
    false
  else if ["SELECT", "FROM"].any (fun kw => !(pyContains (sqlUpper sql_query) kw)) then
    false
  else
    true

/-- `DatabaseManager._validate_query_safety` (database_manager.py:368-420). -/
def validate_query_safety (sql_query : String) : Bool :=
  if !(["SELECT", "WITH"].any (fun k => pyStartsWith (sqlUpper sql_query) k)) then
    false
  else if dangerous_keywords_db.any (fun kw => pyContains (sqlUpper sql_query) kw) then
    false
  else if !(allowed_tables.any (fun t => pyContains sql_query t)) then
    false
  else if pyLen sql_query > 5000 then
    false
  else
    true

/-- `OpenAISQLGenerator._validate_generated_sql`
(project/openai_sql_generator.py:218-249). -/
def validate_generated_sql (sql_query : String) : Bool :=
  if sql_query = "" then false
  else if !(pyStartsWith (sqlUpper sql_query) "SELECT")
      && !(pyStartsWith (sqlUpper sql_query) "WITH") then
    false
  else if dangerous_keywords_openai.any
      (fun kw => pyContains (sqlUpper sql_query) kw) then
    false
  else if !(allowed_tables.any (fun t => pyContains sql_query t)) then
    false
  else
    true

example : validate_query_safety "SELECT * FROM PY_DEPAZ_BAS" = true := by decide
example : validate_query_safety "DROP TABLE PY_DEPAZ_BAS" = false := by decide
example : validate_sql "SELECT * FROM PY_DEPAZ_BAS MERGE" = true := by decide
example : validate_query_safety "SELECT * FROM PY_DEPAZ_BAS MERGE" = false := by decide

/-! ## Substring lemmas

`containsSub` is characterised by `List.IsInfix`, and occurrences of a
whitespace-free pattern are invariant under `strip` — the bridge between
the code's check on `sql.upper().strip()` and the claims' "case-insensitive
substring of `s`". -/

theorem containsSub_iff_isInfix (p l : List Char) :
    containsSub p l = true ↔ p <:+: l := by
  induction l with
  | nil =>
    simp [containsSub, List.isPrefixOf_iff_prefix, List.infix_nil, List.prefix_nil]
  | cons c t ih =>
    simp [containsSub, List.isPrefixOf_iff_prefix, List.infix_cons_iff, ih]

theorem containsSub_reverse (p l : List Char) :
    containsSub p.reverse l.reverse = containsSub p l := by
  rw [Bool.eq_iff_iff, containsSub_iff_isInfix, containsSub_iff_isInfix]
  exact List.reverse_infix

theorem containsSub_dropWhile_ws (p : List Char) (hp : p ≠ [])
    (hws : ∀ c ∈ p, isWs c = false) (l : List Char) :
    containsSub p (l.dropWhile isWs) = containsSub p l := by
  induction l with
  | nil => simp
  | cons c t ih =>
    by_cases h : isWs c = true
    · have hpre : p.isPrefixOf (c :: t) = false := by
        cases p with
        | nil => exact absurd rfl hp
        | cons q qs =>
          have hq : isWs q = false := hws q (List.mem_cons_self q qs)
          refine Bool.eq_false_iff.mpr (fun ht => ?_)
          rcases List.cons_prefix_cons.mp (List.isPrefixOf_iff_prefix.mp ht) with ⟨hqc, -⟩
          rw [hqc, h] at hq
          exact Bool.true_eq_false.mp hq
      rw [List.dropWhile_cons, if_pos h, ih]
      show containsSub p t = containsSub p (c :: t)
      rw [containsSub, hpre, Bool.false_or]
    · rw [List.dropWhile_cons, if_neg h]

theorem containsSub_stripList (p : List Char) (hp : p ≠ [])
    (hws : ∀ c ∈ p, isWs c = false) (l : List Char) :
    containsSub p (stripList l) = containsSub p l := by
  have hrevp : p.reverse ≠ [] := by simpa using hp
  have hrevws : ∀ c ∈ p.reverse, isWs c = false := fun c hc =>
    hws c (List.mem_reverse.mp hc)
  have e1 := containsSub_reverse p.reverse
    (((l.dropWhile isWs).reverse.dropWhile isWs))
  rw [List.reverse_reverse p] at e1
  calc containsSub p (stripList l)
      = containsSub p.reverse ((l.dropWhile isWs).reverse.dropWhile isWs) := by
        rw [stripList]
        exact e1
  _ = containsSub p.reverse (l.dropWhile isWs).reverse :=
        containsSub_dropWhile_ws p.reverse hrevp hrevws _
  _ = containsSub p (l.dropWhile isWs) := containsSub_reverse p _
  _ = containsSub p l := containsSub_dropWhile_ws p hp hws l

/-- The validators test keywords against `sql.upper().strip()`; for a
nonempty whitespace-free keyword this is the same as testing against
`sql.upper()`. -/
theorem pyContains_sqlUpper (s kw : String) (hp : kw.data ≠ [])
    (hws : ∀ c ∈ kw.data, isWs c = false) :
    pyContains (sqlUpper s) kw = ciContains s kw :=
  containsSub_stripList kw.data hp hws (pyUpper s).data

theorem pyContains_append_left (s t pat : String)
    (h : pyContains s pat = true) : pyContains (s ++ t) pat = true := by
  rw [pyContains, String.data_append]
  rcases (containsSub_iff_isInfix pat.data s.data).mp h with ⟨a, b, hab⟩
  exact (containsSub_iff_isInfix _ _).mpr ⟨a, b ++ t.data, by rw [← hab]; simp⟩

theorem pyContains_append_right (s t pat : String)
    (h : pyContains t pat = true) : pyContains (s ++ t) pat = true := by
  rw [pyContains, String.data_append]
  rcases (containsSub_iff_isInfix pat.data t.data).mp h with ⟨a, b, hab⟩
  exact (containsSub_iff_isInfix _ _).mpr ⟨s.data ++ a, b, by rw [← hab]; simp⟩

theorem pyContains_middle (a b c : String) :
    pyContains (a ++ b ++ c) b = true := by
  rw [pyContains, String.data_append, String.data_append]
  exact (containsSub_iff_isInfix _ _).mpr ⟨a.data, c.data, rfl⟩

/-! ## C1: what each validator actually guarantees -/

/-- The string begins with SELECT or WITH, case-insensitively, after
trimming. -/
def claim_start_ok (s : String) : Prop :=
  pyStartsWith (sqlUpper s) "SELECT" = true ∨ pyStartsWith (sqlUpper s) "WITH" = true

/-- None of the given keywords occurs in the string as a case-insensitive
substring. -/
def claim_no_keywords (kws : List String) (s : String) : Prop :=
  ∀ kw ∈ kws, ciContains s kw = false

/-- At least one of the three allowed table names occurs as a substring. -/
def claim_has_table (s : String) : Prop :=
  ∃ t ∈ allowed_tables, pyContains s t = true

theorem keywords_wsfree_db :
    ∀ kw ∈ dangerous_keywords_db, kw.data ≠ [] ∧ ∀ c ∈ kw.data, isWs c = false := by
  decide

theorem keywords_wsfree_gen :
    ∀ kw ∈ dangerous_keywords_gen, kw.data ≠ [] ∧ ∀ c ∈ kw.data, isWs c = false := by
  decide

theorem keywords_wsfree_openai :
    ∀ kw ∈ dangerous_keywords_openai,
      kw.data ≠ [] ∧ ∀ c ∈ kw.data, isWs c = false := by
  decide

theorem no_keywords_of_any_false (kws : List String) (s : String)
    (hwf : ∀ kw ∈ kws, kw.data ≠ [] ∧ ∀ c ∈ kw.data, isWs c = false)
    (h : kws.any (fun kw => pyContains (sqlUpper s) kw) = false) :
    claim_no_keywords kws s := by
  intro kw hkw
  have hfalse : pyContains (sqlUpper s) kw = false :=
    Bool.eq_false_iff.mpr (List.any_eq_false.mp h kw hkw)
  rcases hwf kw hkw with ⟨hne, hws⟩
  rw [← pyContains_sqlUpper s kw hne hws]
  exact hfalse

/-- C1 (amended).  If the database layer's validator
(`_validate_query_safety`) accepts `s`, then `s` begins with SELECT or
WITH after trimming, contains none of the 11 mutating keywords (including
MERGE and BULK) case-insensitively, references one of the three allowed
tables, and has length at most 5000.  The validator shared by the AI and
rule-based generation paths (`_validate_sql`) guarantees only the first
three properties for its 9-keyword list (without MERGE and BULK, and with
no length bound), and the project AI generator's validator
(`_validate_generated_sql`) only for its 7-keyword list. -/
theorem C1_validators_soundness (s : String) :
    (validate_query_safety s = true →
      claim_start_ok s ∧ claim_no_keywords dangerous_keywords_db s ∧
        claim_has_table s ∧ pyLen s ≤ 5000) ∧
    (validate_sql s = true →
      claim_start_ok s ∧ claim_no_keywords dangerous_keywords_gen s ∧
        claim_has_table s) ∧
    (validate_generated_sql s = true →
      claim_start_ok s ∧ claim_no_keywords dangerous_keywords_openai s ∧
        claim_has_table s) := by
  refine ⟨?_, ?_, ?_⟩
  · intro h
    rw [validate_query_safety] at h
    split_ifs at h with h1 h2 h3 h4
    simp only [Bool.not_eq_true', Bool.not_eq_false, Bool.not_eq_true] at h1 h2 h3
    refine ⟨?_, no_keywords_of_any_false _ s keywords_wsfree_db h2,
      List.any_eq_true.mp h3, by omega⟩
    simp only [List.any_cons, List.any_nil, Bool.or_false, Bool.or_eq_true] at h1
    exact h1
  · intro h
    rw [validate_sql] at h
    split_ifs at h with h0 h1 h2 h3 h4
    simp only [Bool.not_eq_true', Bool.not_eq_false, Bool.not_eq_true] at h1 h2 h3
    refine ⟨?_, no_keywords_of_any_false _ s keywords_wsfree_gen h2,
      List.any_eq_true.mp h3⟩
    rcases Bool.and_eq_false_iff.mp h1 with hsel | hwith
    · exact Or.inl (by simpa using hsel)
    · exact Or.inr (by simpa using hwith)
  · intro h
    rw [validate_generated_sql] at h
    split_ifs at h with h0 h1 h2 h3
    simp only [Bool.not_eq_true', Bool.not_eq_false, Bool.not_eq_true] at h1 h2 h3
    refine ⟨?_, no_keywords_of_any_false _ s keywords_wsfree_openai h2,
      List.any_eq_true.mp h3⟩
    rcases Bool.and_eq_false_iff.mp h1 with hsel | hwith
    · exact Or.inl (by simpa using hsel)
    · exact Or.inr (by simpa using hwith)

/-- C1 witness: applying the soundness theorem to a concrete accepted
query. -/
theorem C1_validators_soundness_witness :
    claim_start_ok "SELECT * FROM PY_DEPAZ_BAS" ∧
    claim_no_keywords dangerous_keywords_db "SELECT * FROM PY_DEPAZ_BAS" ∧
    claim_has_table "SELECT * FROM PY_DEPAZ_BAS" ∧
    pyLen "SELECT * FROM PY_DEPAZ_BAS" ≤ 5000 :=
  (C1_validators_soundness "SELECT * FROM PY_DEPAZ_BAS").1 (by decide)

/-- A query containing MERGE that both generation-path validators accept. -/
def merge_probe : String := "SELECT * FROM PY_DEPAZ_BAS MERGE"

/-- A query of length 5001 that the generation-path validator accepts. -/
def long_probe : String :=
  "SELECT * FROM PY_DEPAZ_BAS" ++ String.mk (List.replicate 4975 ' ')

theorem dropWhile_ws_replicate_space (m : Nat) (x : List Char) :
    List.dropWhile isWs (List.replicate m ' ' ++ x) = List.dropWhile isWs x := by
  induction m with
  | zero => simp
  | succ k ih =>
    rw [List.replicate_succ, List.cons_append, List.dropWhile_cons,
      if_pos (by decide : isWs ' ' = true)]
    exact ih

theorem stripList_base_pad (n : Nat) :
    stripList ("SELECT * FROM PY_DEPAZ_BAS".data ++ List.replicate n ' ') =
      "SELECT * FROM PY_DEPAZ_BAS".data := by
  rw [stripList, List.dropWhile_append,
    (by decide : "SELECT * FROM PY_DEPAZ_BAS".data.dropWhile isWs
      = "SELECT * FROM PY_DEPAZ_BAS".data),
    if_neg (by decide : ¬("SELECT * FROM PY_DEPAZ_BAS".data.isEmpty = true)),
    List.reverse_append, List.reverse_replicate, dropWhile_ws_replicate_space,
    (by decide : "SELECT * FROM PY_DEPAZ_BAS".data.reverse.dropWhile isWs
      = "SELECT * FROM PY_DEPAZ_BAS".data.reverse),
    List.reverse_reverse]

theorem long_probe_data :
    long_probe.data = "SELECT * FROM PY_DEPAZ_BAS".data ++ List.replicate 4975 ' ' := by
  show ("SELECT * FROM PY_DEPAZ_BAS" ++ String.mk (List.replicate 4975 ' ')).data = _
  rw [String.data_append]

theorem pyStrip_long_probe :
    pyStrip long_probe = "SELECT * FROM PY_DEPAZ_BAS" := by
  rw [pyStrip, long_probe_data, stripList_base_pad]

theorem sqlUpper_long_probe :
    sqlUpper long_probe = "SELECT * FROM PY_DEPAZ_BAS" := by
  have hdata : (pyUpper long_probe).data
      = "SELECT * FROM PY_DEPAZ_BAS".data ++ List.replicate 4975 ' ' := by
    show long_probe.data.map Char.toUpper = _
    rw [long_probe_data, List.map_append, List.map_replicate,
      (by decide : "SELECT * FROM PY_DEPAZ_BAS".data.map Char.toUpper
        = "SELECT * FROM PY_DEPAZ_BAS".data),
      (by decide : ' '.toUpper = ' ')]
  rw [sqlUpper, pyStrip, hdata, stripList_base_pad]

theorem pyLen_long_probe : pyLen long_probe = 5001 := by
  rw [pyLen, long_probe_data, List.length_append, List.length_replicate,
    (by decide : "SELECT * FROM PY_DEPAZ_BAS".data.length = 26)]

theorem validate_sql_long_probe : validate_sql long_probe = true := by
  have htab : (allowed_tables.any fun t => pyContains long_probe t) = true := by
    refine List.any_eq_true.mpr ⟨"PY_DEPAZ_BAS", by decide, ?_⟩
    show pyContains ("SELECT * FROM PY_DEPAZ_BAS" ++ String.mk (List.replicate 4975 ' '))
      "PY_DEPAZ_BAS" = true
    exact pyContains_append_left _ _ _ (by decide)
  rw [validate_sql, pyStrip_long_probe, sqlUpper_long_probe, htab]
  decide

/-- C1 counterexample: the generation-path validators accept a query
containing the mutating keyword MERGE (which the database-layer validator
rejects), and accept a query longer than 5000 characters, so the claimed
property fails for the validator shared by the AI and rule-based
generation paths. -/
theorem C1_validators_counterexample :
    validate_sql merge_probe = true ∧
    validate_generated_sql merge_probe = true ∧
    ciContains merge_probe "MERGE" = true ∧
    validate_query_safety merge_probe = false ∧
    validate_sql long_probe = true ∧
    pyLen long_probe = 5001 :=
  ⟨by decide, by decide, by decide, by decide,
    validate_sql_long_probe, pyLen_long_probe⟩

/-! ## Operator/carrier extraction (sql_generator.py:23-35, 221-226) -/

/-- `SQLGenerator.operator_mapping`, in Python dict insertion order. -/
def operator_mapping : List (String × String) :=
  [("KT", "KT"), ("SKT", "SKT"), ("SK텔레콤", "SKT"), ("SK", "SKT"),
   ("LGU+", "LGU+"), ("LG유플러스", "LGU+"), ("LG", "LGU+"), ("유플러스", "LGU+"),
   ("KT MVNO", "KT MVNO"), ("SKT MVNO", "SKT MVNO"), ("LGU+ MVNO", "LGU+ MVNO")]

/-- The f-string filter clause built from the canonical operator name. -/
def operator_clause (v : String) : String :=
  "AND (BCHNG_COMM_CMPN_ID = '" ++ v ++ "' OR ACHNG_COMM_CMPN_ID = '" ++ v ++ "')"

/-- The `for key, value in self.operator_mapping.items()` loop of
`_extract_operator_filter`: first key (in mapping order) whose lowercase
form occurs in the lowercased input wins. -/
def find_operator : List (String × String) → String → Option String
  | [], _ => none
  | (k, v) :: rest, user_input =>
    if pyContains (pyLower user_input) (pyLower k) then some v
    else find_operator rest user_input

/-- `SQLGenerator._extract_operator_filter` (sql_generator.py:221-226). -/
def extract_operator_filter (user_input : String) : String :=
  match find_operator operator_mapping user_input with
  | some v => operator_clause v
  | none => ""

theorem find_operator_eq_find? (m : List (String × String)) (input : String) :
    find_operator m input =
      (m.find? (fun kv => pyContains (pyLower input) (pyLower kv.1))).map Prod.snd := by
  induction m with
  | nil => rfl
  | cons kv rest ih =>
    rcases kv with ⟨k, v⟩
    by_cases h : pyContains (pyLower input) (pyLower k) = true
    · simp [find_operator, List.find?_cons, h]
    · simp only [Bool.not_eq_true] at h
      simp [find_operator, List.find?_cons, h, ih]

/-! ## Date-range extraction (sql_generator.py:332-358) -/

/-- Maximal leading run of ASCII decimal digits (the characters matched by
`\d` in the inputs this code sees) and the remainder. -/
def digitsSplit : List Char → List Char × List Char
  | [] => ([], [])
  | c :: t =>
    if c.isDigit then
      let p := digitsSplit t
      (c :: p.1, p.2)
    else ([], c :: t)

/-- Python `int` on a digit string. -/
def digitsToNat (l : List Char) : Nat :=
  l.foldl (fun n c => 10 * n + (c.toNat - 48)) 0

/-- One attempt of the regex `(\d+)개?월` at the head of the list:
a nonempty greedy digit run, an optional '개', then '월'.  (If the
character after the digits is '개' the regex must consume it to reach
'월', so no backtracking case is lost.) -/
def month_match_at (l : List Char) : Option Nat :=
  let p := digitsSplit l
  if p.1.isEmpty then none
  else
    match p.2 with
    | '개' :: '월' :: _ => some (digitsToNat p.1)
    | '월' :: _ => some (digitsToNat p.1)
    | _ => none

/-- `re.search(r"(\d+)개?월", s)`: leftmost match. -/
def month_search : List Char → Option Nat
  | [] => none
  | c :: t => (month_match_at (c :: t)).orElse (fun _ => month_search t)

/-- `SQLGenerator._extract_date_filter` (sql_generator.py:332-358).  Note
the generic `N개월` branch emits `DATEADD(year, -N, ...)` in the source. -/
def extract_date_filter (user_input : String) : String :=
  if pyContains user_input "최근 1개월" || pyContains user_input "최근 한달" then
    "DATEADD(month, -1, GETDATE())"
  else if pyContains user_input "최근 3개월" then
    "DATEADD(month, -3, GETDATE())"
  else if pyContains user_input "최근 6개월" then
    "DATEADD(month, -6, GETDATE())"
  else if pyContains user_input "최근 1년" then
    "DATEADD(year, -1, GETDATE())"
  else
    match month_search user_input.data with
    | some months => "DATEADD(year, -" ++ toString months ++ ", GETDATE())"
    | none => "DATEADD(month, -3, GETDATE())"

example : month_search "최근 2개월".data = some 2 := by decide
example : month_search "최근 12개월".data = some 12 := by decide
example : month_search "현황 알려줘".data = none := by decide

/-- C8: operator extraction applies the fixed mapping; the first mapping
entry (in the mapping's fixed order) whose key occurs case-insensitively
in the input determines the canonical name interpolated into the single
generated AND filter clause; the result is either empty or exactly one
clause, so at most one operator filter is produced. -/
theorem C8_extract_operator_filter_spec :
    (∀ input : String,
      extract_operator_filter input =
        match operator_mapping.find?
            (fun kv => pyContains (pyLower input) (pyLower kv.1)) with
        | some kv => operator_clause kv.2
        | none => "") ∧
    extract_operator_filter "SK텔레콤 포트아웃 정산 내역" = operator_clause "SKT" ∧
    extract_operator_filter "SK 포트아웃 정산 내역" = operator_clause "SKT" ∧
    (∀ input : String, extract_operator_filter input = "" ∨
      ∃ kv ∈ operator_mapping, extract_operator_filter input = operator_clause kv.2) := by
  have hchar : ∀ input : String,
      extract_operator_filter input =
        match operator_mapping.find?
            (fun kv => pyContains (pyLower input) (pyLower kv.1)) with
        | some kv => operator_clause kv.2
        | none => "" := by
    intro input
    rw [extract_operator_filter, find_operator_eq_find?]
    rcases hfind : operator_mapping.find?
        (fun kv => pyContains (pyLower input) (pyLower kv.1)) with _ | kv <;>
      rw [hfind] <;> rfl
  refine ⟨hchar, by decide, by decide, fun input => ?_⟩
  rw [hchar input]
  rcases hfind : operator_mapping.find?
      (fun kv => pyContains (pyLower input) (pyLower kv.1)) with _ | kv
  · rw [hfind]
    exact Or.inl rfl
  · rw [hfind]
    exact Or.inr ⟨kv, List.mem_of_find?_eq_some hfind, rfl⟩

/-- C7: the fixed Korean phrases map to the documented relative-date
expressions and the no-match default is the last-3-months expression, but
the generic "N개월" branch emits `DATEADD(year, -N, GETDATE())` —
subtracting N YEARS — instead of the claimed N months ("최근 2개월" is a
failing input; the commented-out line directly above it in the source and
the project/ variant both use months). -/
theorem C7_extract_date_filter_year_bug :
    extract_date_filter "최근 2개월" = "DATEADD(year, -2, GETDATE())" ∧
    extract_date_filter "최근 1개월" = "DATEADD(month, -1, GETDATE())" ∧
    extract_date_filter "최근 한달" = "DATEADD(month, -1, GETDATE())" ∧
    extract_date_filter "최근 3개월" = "DATEADD(month, -3, GETDATE())" ∧
    extract_date_filter "최근 6개월" = "DATEADD(month, -6, GETDATE())" ∧
    extract_date_filter "최근 1년" = "DATEADD(year, -1, GETDATE())" ∧
    extract_date_filter "현황 알려줘" = "DATEADD(month, -3, GETDATE())" := by
  refine ⟨by decide, by decide, by decide, by decide, by decide, by decide, by decide⟩

/-! ## Phone-number matching (sql_generator.py:267-269)

The regex `010[- ]?\d{4}[- ]?\d{4}` searched leftmost-first.  After
matching `010`, if the next character is a separator the regex must
consume it (a digit is required next, and a separator is not a digit), so
the greedy `[- ]?` needs no backtracking and the matcher below is exact. -/

def isSep (c : Char) : Bool :=
  c == '-' || c == ' '

/-- Exactly four ASCII digits, returning them and the rest. -/
def takeDigits4 (l : List Char) : Option (List Char × List Char) :=
  match l with
  | d1 :: d2 :: d3 :: d4 :: rest =>
    if d1.isDigit && d2.isDigit && d3.isDigit && d4.isDigit then
      some ([d1, d2, d3, d4], rest)
    else none
  | _ => none

/-- At most one separator, returning the consumed characters and the rest. -/
def takeSep (l : List Char) : List Char × List Char :=
  match l with
  | c :: t => if isSep c then ([c], t) else ([], l)
  | [] => ([], l)

/-- One attempt of the phone regex at the head of the list, returning the
matched characters (`.group()`). -/
def phone_match_at (l : List Char) : Option (List Char) :=
  match l with
  | '0' :: '1' :: '0' :: rest =>
    let s1 := takeSep rest
    match takeDigits4 s1.2 with
    | none => none
    | some (d1, r2) =>
      let s2 := takeSep r2
      match takeDigits4 s2.2 with
      | none => none
      | some (d2, _) => some ('0' :: '1' :: '0' :: (s1.1 ++ d1 ++ s2.1 ++ d2))
  | _ => none

def phone_search_list : List Char → Option (List Char)
  | [] => none
  | c :: t => (phone_match_at (c :: t)).orElse (fun _ => phone_search_list t)

/-- `re.search(r"010[- ]?\d{4}[- ]?\d{4}", user_input)`, returning the
matched text. -/
def phone_search (user_input : String) : Option String :=
  (phone_search_list user_input.data).map String.mk

/-- `phone_match.group().replace("-", "").replace(" ", "")`. -/
def strip_phone (m : String) : String :=
  String.mk (m.data.filter (fun c => !(c == '-' || c == ' ')))

example : phone_search "010-1234-5678 번호의 정산 내역 확인해줘" = some "010-1234-5678" := by
  decide
example : strip_phone "010-1234-5678" = "01012345678" := by decide
example : phone_search "안녕 01012345678 조회" = some "01012345678" := by decide
example : phone_search "월별 현황" = none := by decide

/-! ## Rule-based SQL templates (sql_generator.py:228-321, 726-746)

The f-string templates are reproduced verbatim; each `{...}` interpolation
point becomes a `++`. -/

def monthly_port_in_query (date_filter : String) : String :=
  "
                SELECT
                    FORMAT(TRT_DATE, 'yyyy-MM') as 월,
                    BCHNG_COMM_CMPN_ID as 전사업자,
                    COUNT(*) as 총건수,
                    SUM(SETL_AMT) as 총금액,
                    ROUND(AVG(CAST(SETL_AMT AS FLOAT)), 0) as 평균금액
                FROM PY_NP_SBSC_RMNY_TXN
                WHERE TRT_DATE >= " ++ date_filter ++ "
                    AND NP_STTUS_CD IN ('OK', 'WD')
                GROUP BY FORMAT(TRT_DATE, 'yyyy-MM'), BCHNG_COMM_CMPN_ID
                ORDER BY 월 DESC, 총금액 DESC
                "

def monthly_port_out_query (date_filter : String) : String :=
  "
                SELECT
                    FORMAT(NP_TRMN_DATE, 'yyyy-MM') as 월,
                    ACHNG_COMM_CMPN_ID as 전사업자,
                    COUNT(*) as 총건수,
                    SUM(PAY_AMT) as 총금액,
                    ROUND(AVG(CAST(PAY_AMT AS FLOAT)), 0) as 평균금액
                FROM PY_NP_TRMN_RMNY_TXN
                WHERE NP_TRMN_DATE >= " ++ date_filter ++ "
                    AND NP_TRMN_DTL_STTUS_VAL IN ('1', '3')
                GROUP BY FORMAT(NP_TRMN_DATE, 'yyyy-MM'), ACHNG_COMM_CMPN_ID
                ORDER BY 월 DESC, 총금액 DESC
                "

def phone_q_a : String :=
  "
            SELECT
                'PORT_IN' as 번호이동타입,
                TRT_DATE as 번호이동일,
                LEFT(TEL_NO, 3) + '****' + RIGHT(TEL_NO, 4) as 전화번호,
                SETL_AMT as 정산금액,
                BCHNG_COMM_CMPN_ID as 사업자,
                NP_STTUS_CD as 상태
            FROM PY_NP_SBSC_RMNY_TXN
            "

def phone_q_b : String :=
  " AND NP_STTUS_CD IN ('OK', 'WD')
            UNION ALL
            SELECT
                'PORT_OUT' as 번호이동타입,
                NP_TRMN_DATE as 번호이동일,
                LEFT(TEL_NO, 3) + '****' + RIGHT(TEL_NO, 4) as 전화번호,
                PAY_AMT as 정산금액,
                ACHNG_COMM_CMPN_ID as 사업자,
                NP_TRMN_DTL_STTUS_VAL as 상태
            FROM PY_NP_TRMN_RMNY_TXN
            "

def phone_q_c : String :=
  " AND NP_TRMN_DTL_STTUS_VAL IN ('1', '3')
            ORDER BY 번호이동일 DESC
            "

/-- The phone-search template of `_generate_rule_based_sql`
(sql_generator.py:270-291), with `{phone}` interpolated twice. -/
def phone_search_query (phone : String) : String :=
  phone_q_a ++ "WHERE TEL_NO = '" ++ phone ++ "'" ++ phone_q_b ++
    "WHERE TEL_NO = '" ++ phone ++ "'" ++ phone_q_c

def operator_status_query (date_filter : String) : String :=
  "
            SELECT
                BCHNG_COMM_CMPN_ID as 사업자,
                'PORT_IN' as 타입,
                COUNT(*) as 건수,
                SUM(SETL_AMT) as 총금액,
                ROUND(AVG(CAST(SETL_AMT AS FLOAT)), 0) as 평균금액
            FROM PY_NP_SBSC_RMNY_TXN
            WHERE TRT_DATE >= " ++ date_filter ++ "
                AND NP_STTUS_CD IN ('OK', 'WD')
            GROUP BY BCHNG_COMM_CMPN_ID
            UNION ALL
            SELECT
                ACHNG_COMM_CMPN_ID as 사업자,
                'PORT_OUT' as 타입,
                COUNT(*) as 건수,
                SUM(PAY_AMT) as 총금액,
                ROUND(AVG(CAST(PAY_AMT AS FLOAT)), 0) as 평균금액
            FROM PY_NP_TRMN_RMNY_TXN
            WHERE NP_TRMN_DATE >= " ++ date_filter ++ "
                AND NP_TRMN_DTL_STTUS_VAL IN ('1', '3')
            GROUP BY ACHNG_COMM_CMPN_ID
            ORDER BY 사업자, 타입
            "

/-- `SQLGenerator._get_default_query` (sql_generator.py:726-746). -/
def default_query : String :=
  "
        SELECT
            'PORT_IN' as 번호이동타입,
            COUNT(*) as 거래건수,
            SUM(SETL_AMT) as 총금액,
            ROUND(AVG(SETL_AMT), 0) as 평균금액
        FROM PY_NP_SBSC_RMNY_TXN
        WHERE TRT_DATE >= DATEADD(month, -1, GETDATE())
            AND NP_STTUS_CD IN ('OK', 'WD')
        UNION ALL
        SELECT
            'PORT_OUT' as 번호이동타입,
            COUNT(*) as 거래건수,
            SUM(PAY_AMT) as 총금액,
            ROUND(AVG(PAY_AMT), 0) as 평균금액
        FROM PY_NP_TRMN_RMNY_TXN
        WHERE NP_TRMN_DATE >= DATEADD(month, -1, GETDATE())
            AND NP_TRMN_DTL_STTUS_VAL IN ('1', '3')
        "

def operator_status_keywords : List String :=
  ["사업자", "회사", "통신사", "현황"]

/-- `SQLGenerator._generate_rule_based_sql` (sql_generator.py:228-321).
The monthly branch falls through to the phone check when neither 포트인
nor 포트아웃 appears, exactly as the Python `if`/`elif` without `else`. -/
def generate_rule_based_sql (user_input : String) : String :=
  let user_input_lower := pyLower user_input
  let date_filter := extract_date_filter user_input_lower
  if (pyContains user_input_lower "월별" || pyContains user_input_lower "추이")
      && pyContains user_input_lower "포트인" then
    monthly_port_in_query date_filter
  else if (pyContains user_input_lower "월별" || pyContains user_input_lower "추이")
      && pyContains user_input_lower "포트아웃" then
    monthly_port_out_query date_filter
  else
    match phone_search user_input with
    | some m => phone_search_query (strip_phone m)
    | none =>
      if operator_status_keywords.any (fun k => pyContains user_input_lower k) then
        operator_status_query date_filter
      else
        default_query

/-! ## C2: phone-number masking in the rule-based generator -/

theorem phone_query_contains_mask (phone : String) :
    pyContains (phone_search_query phone)
      "LEFT(TEL_NO, 3) + '****' + RIGHT(TEL_NO, 4) as 전화번호" = true := by
  rw [pyContains]
  apply (containsSub_iff_isInfix _ _).mpr
  have h1 : ("LEFT(TEL_NO, 3) + '****' + RIGHT(TEL_NO, 4) as 전화번호" : String).data
      <:+: phone_q_a.data :=
    (containsSub_iff_isInfix _ _).mp (by decide)
  refine h1.trans ⟨[], ("WHERE TEL_NO = '" ++ phone ++ "'" ++ phone_q_b ++
    "WHERE TEL_NO = '" ++ phone ++ "'" ++ phone_q_c).data, ?_⟩
  simp [phone_search_query, String.data_append, List.append_assoc]

theorem phone_query_contains_filter (phone : String) :
    pyContains (phone_search_query phone)
      ("WHERE TEL_NO = '" ++ phone ++ "'") = true := by
  rw [pyContains]
  apply (containsSub_iff_isInfix _ _).mpr
  refine ⟨phone_q_a.data, (phone_q_b ++ "WHERE TEL_NO = '" ++ phone ++ "'"
    ++ phone_q_c).data, ?_⟩
  simp [phone_search_query, String.data_append, List.append_assoc]

/-- C2 (amended).  For every input in which the phone regex matches,
UNLESS the input also triggers the earlier monthly-trend branch (월별 or
추이 together with 포트인 or 포트아웃 — that branch is checked first and
returns a query without any TEL_NO reference), the rule-based generator
returns the phone-search query: its phone output column is the masked
expression `LEFT(TEL_NO, 3) + '****' + RIGHT(TEL_NO, 4)` and its WHERE
clauses filter TEL_NO by equality against the matched number with '-' and
' ' removed. -/
theorem C2_phone_masking (user_input m : String)
    (hphone : phone_search user_input = some m)
    (hmi : ((pyContains (pyLower user_input) "월별"
        || pyContains (pyLower user_input) "추이")
        && pyContains (pyLower user_input) "포트인") = false)
    (hmo : ((pyContains (pyLower user_input) "월별"
        || pyContains (pyLower user_input) "추이")
        && pyContains (pyLower user_input) "포트아웃") = false) :
    generate_rule_based_sql user_input = phone_search_query (strip_phone m) ∧
    pyContains (generate_rule_based_sql user_input)
      "LEFT(TEL_NO, 3) + '****' + RIGHT(TEL_NO, 4) as 전화번호" = true ∧
    pyContains (generate_rule_based_sql user_input)
      ("WHERE TEL_NO = '" ++ strip_phone m ++ "'") = true := by
  have heq : generate_rule_based_sql user_input = phone_search_query (strip_phone m) := by
    rw [generate_rule_based_sql]
    simp only [hmi, hmo, hphone, if_false, Bool.false_eq_true]
  exact ⟨heq, heq ▸ phone_query_contains_mask (strip_phone m),
         heq ▸ phone_query_contains_filter (strip_phone m)⟩

/-- C2 witness at the spec's scenario input. -/
theorem C2_phone_masking_witness :
    generate_rule_based_sql "010-1234-5678 번호의 정산 내역 확인해줘"
        = phone_search_query (strip_phone "010-1234-5678") ∧
    pyContains (generate_rule_based_sql "010-1234-5678 번호의 정산 내역 확인해줘")
      "LEFT(TEL_NO, 3) + '****' + RIGHT(TEL_NO, 4) as 전화번호" = true ∧
    pyContains (generate_rule_based_sql "010-1234-5678 번호의 정산 내역 확인해줘")
      ("WHERE TEL_NO = '" ++ strip_phone "010-1234-5678" ++ "'") = true :=
  C2_phone_masking "010-1234-5678 번호의 정산 내역 확인해줘" "010-1234-5678"
    (by decide) (by decide) (by decide)

/-- C2 counterexample: an input that matches the phone regex but also
triggers the monthly-trend branch; the generated SQL contains neither the
mask nor any TEL_NO filter, refuting the claim as universally stated. -/
theorem C2_phone_masking_counterexample :
    phone_search "월별 포트인 010-1234-5678 확인" = some "010-1234-5678" ∧
    pyContains (generate_rule_based_sql "월별 포트인 010-1234-5678 확인") "****" = false ∧
    pyContains (generate_rule_based_sql "월별 포트인 010-1234-5678 확인") "TEL_NO" = false :=
  ⟨by decide, by decide, by decide⟩

/-! ## generate_sql (sql_generator.py:132-175) and its fallback chain

`SQLGenerator.generate_sql` tries the AI path (only when an OpenAI client
exists), then the rule-based path, then the default query.  The two
fallible sub-calls are oracles: `aiCall` is `_generate_ai_sql` (returns
`none` when the model call failed or raised — its exceptions are caught
inside), and `ruleRaises` models the `except` branch around the
rule-based step (the embedded `_generate_rule_based_sql` itself is total).
The `Nat` component counts invocations of the AI model endpoint. -/

def rule_step (ruleRaises : Bool) (user_input : String) : Option String :=
  if ruleRaises then none else some (generate_rule_based_sql user_input)

def rule_fallback (ruleRaises : Bool) (user_input : String) : String × Bool :=
  match rule_step ruleRaises user_input with
  | some rule_sql =>
    if (rule_sql != "") && validate_sql rule_sql then (rule_sql, false)
    else (default_query, false)
  | none => (default_query, false)

def generate_sql (hasClient : Bool) (aiCall : String → Option String)
    (ruleRaises : Bool) (user_input : String) : (String × Bool) × Nat :=
  if hasClient then
    match aiCall user_input with
    | some ai_sql =>
      if (ai_sql != "") && validate_sql ai_sql then ((ai_sql, true), 1)
      else (rule_fallback ruleRaises user_input, 1)
    | none => (rule_fallback ruleRaises user_input, 1)
  else (rule_fallback ruleRaises user_input, 0)

/-- The AI step yields no usable query: no client, call failed, or the
result is empty/fails validation. -/
def ai_step_fails : Bool → Option String → Bool
  | true, some ai_sql => !((ai_sql != "") && validate_sql ai_sql)
  | true, none => true
  | false, _ => true

/-- The rule-based step raises or its result is empty/fails validation. -/
def rule_step_fails (ruleRaises : Bool) (user_input : String) : Bool :=
  match rule_step ruleRaises user_input with
  | some rule_sql => !((rule_sql != "") && validate_sql rule_sql)
  | none => true

theorem rule_fallback_shape (rr : Bool) (input : String) :
    rule_fallback rr input = (generate_rule_based_sql input, false) ∨
    rule_fallback rr input = (default_query, false) := by
  cases rr
  · by_cases hv : ((generate_rule_based_sql input != "")
        && validate_sql (generate_rule_based_sql input)) = true
    · left
      simp [rule_fallback, rule_step, hv]
    · right
      simp only [Bool.not_eq_true] at hv
      simp [rule_fallback, rule_step, hv]
  · right
    simp [rule_fallback, rule_step]

theorem rule_fallback_snd (rr : Bool) (input : String) :
    (rule_fallback rr input).2 = false := by
  rcases rule_fallback_shape rr input with h | h <;> rw [h]

theorem rule_fallback_of_fails (rr : Bool) (input : String)
    (h : rule_step_fails rr input = true) :
    rule_fallback rr input = (default_query, false) := by
  rcases hr : rule_step rr input with _ | r
  · simp [rule_fallback, hr]
  · rw [rule_step_fails, hr] at h
    simp only [Bool.not_eq_true'] at h
    simp [rule_fallback, hr, h]

/-- C3: for every input (and every behaviour of the two fallible
sub-steps) `generate_sql` returns a pair that is the AI result flagged
`used_ai = true`, the rule-based result flagged `false`, or the default
query flagged `false`; and whenever the AI path is unavailable or fails
and the rule-based step fails (raises, or its result is empty or fails
validation), the returned pair is exactly `(default_query, false)`. -/
theorem C3_generate_sql_fallback (hasClient : Bool)
    (aiCall : String → Option String) (ruleRaises : Bool) (user_input : String) :
    ((generate_sql hasClient aiCall ruleRaises user_input).1
        = (default_query, false) ∨
     (generate_sql hasClient aiCall ruleRaises user_input).1
        = (generate_rule_based_sql user_input, false) ∨
     (∃ s, aiCall user_input = some s ∧
       (generate_sql hasClient aiCall ruleRaises user_input).1 = (s, true))) ∧
    (ai_step_fails hasClient (aiCall user_input) = true →
     rule_step_fails ruleRaises user_input = true →
     (generate_sql hasClient aiCall ruleRaises user_input).1
        = (default_query, false)) := by
  constructor
  · cases hasClient
    · rcases rule_fallback_shape ruleRaises user_input with h | h
      · exact Or.inr (Or.inl (by simp [generate_sql, h]))
      · exact Or.inl (by simp [generate_sql, h])
    · rcases hai : aiCall user_input with _ | s
      · rcases rule_fallback_shape ruleRaises user_input with h | h
        · exact Or.inr (Or.inl (by simp [generate_sql, hai, h]))
        · exact Or.inl (by simp [generate_sql, hai, h])
      · by_cases hv : ((s != "") && validate_sql s) = true
        · exact Or.inr (Or.inr ⟨s, rfl, by simp [generate_sql, hai, hv]⟩)
        · have hvf : ((s != "") && validate_sql s) = false := Bool.eq_false_iff.mpr hv
          rcases rule_fallback_shape ruleRaises user_input with h | h
          · exact Or.inr (Or.inl (by simp [generate_sql, hai, hvf, h]))
          · exact Or.inl (by simp [generate_sql, hai, hvf, h])
  · intro hai hrule
    have hdef := rule_fallback_of_fails ruleRaises user_input hrule
    cases hasClient
    · simp [generate_sql, hdef]
    · rcases hcall : aiCall user_input with _ | s
      · simp [generate_sql, hcall, hdef]
      · simp only [ai_step_fails, hcall, Bool.not_eq_true'] at hai
        simp [generate_sql, hcall, hai, hdef]

/-- C3 witness: AI unavailable and rule step raising yields the default
query with `used_ai = false`. -/
theorem C3_generate_sql_fallback_witness :
    (generate_sql false (fun _ => none) true "테스트").1 = (default_query, false) :=
  (C3_generate_sql_fallback false (fun _ => none) true "테스트").2
    (by decide) (by decide)

/-! ## C5: no AI usage without credentials (azure_config.py:76-107) -/

/-- Python truthiness of `os.getenv(...)`: set and nonempty. -/
def pyTruthy : Option String → Bool
  | none => false
  | some s => s != ""

/-- `AzureConfig.get_openai_client` returns `None` when the API key or
endpoint is missing or empty (`if not self.openai_api_key or not
self.openai_endpoint: return None`); otherwise client construction may
still fail for other reasons, abstracted by `clientCreationOk`. -/
def openai_client_present (apiKey endpoint : Option String)
    (clientCreationOk : Bool) : Bool :=
  if !(pyTruthy apiKey) || !(pyTruthy endpoint) then false
  else clientCreationOk

/-- C5: with the API key or endpoint absent the configured client is
`None`, and then for every input `generate_sql` returns
`used_ai = false` and invokes the AI endpoint zero times. -/
theorem C5_no_ai_without_credentials (apiKey endpoint : Option String)
    (clientCreationOk : Bool) (aiCall : String → Option String)
    (ruleRaises : Bool) (user_input : String)
    (hcred : pyTruthy apiKey = false ∨ pyTruthy endpoint = false) :
    openai_client_present apiKey endpoint clientCreationOk = false ∧
    (generate_sql (openai_client_present apiKey endpoint clientCreationOk)
        aiCall ruleRaises user_input).1.2 = false ∧
    (generate_sql (openai_client_present apiKey endpoint clientCreationOk)
        aiCall ruleRaises user_input).2 = 0 := by
  have hnone : openai_client_present apiKey endpoint clientCreationOk = false := by
    rw [openai_client_present]
    rcases hcred with h | h <;> rw [h] <;> simp
  refine ⟨hnone, ?_, ?_⟩ <;> rw [hnone, generate_sql] <;>
    simp only [Bool.false_eq_true, if_false]
  exact rule_fallback_snd ruleRaises user_input

/-- C5 witness: missing API key, concrete endpoint and input. -/
theorem C5_no_ai_without_credentials_witness :
    openai_client_present none (some "https://example.openai.azure.com") true = false ∧
    (generate_sql (openai_client_present none
        (some "https://example.openai.azure.com") true)
      (fun _ => some "SELECT 1") false "월별 포트인 현황을 알려줘").1.2 = false ∧
    (generate_sql (openai_client_present none
        (some "https://example.openai.azure.com") true)
      (fun _ => some "SELECT 1") false "월별 포트인 현황을 알려줘").2 = 0 :=
  C5_no_ai_without_credentials none (some "https://example.openai.azure.com") true
    (fun _ => some "SELECT 1") false "월별 포트인 현황을 알려줘" (Or.inl (by decide))

/-! ## Query execution (database_manager.py:20-45, 289-366)

`pd.read_sql_query` and every driver-level failure are abstracted by the
`engine` oracle; the elapsed wall-clock time `time.time() - start_time`
(non-negative, the clock is monotonic within a call) is the explicit
`elapsed` parameter.  The `query_hash` and `data_size_mb` fields carry no
information about the rows and are omitted; `metadata["truncated"]`,
absent unless set, becomes a `Bool` field defaulting to `false`. -/

structure DataFrame where
  columns : List String
  rows : List (List String)
deriving Repr, DecidableEq

def empty_df : DataFrame := ⟨[], []⟩

structure QueryMeta where
  execution_time : Nat
  row_count : Nat
  column_count : Nat
  success : Bool
  error_message : Option String
  database_type : String
  query_preview : String
  truncated : Bool
deriving Repr, DecidableEq

/-- `self.max_execution_time = 30` (database_manager.py:36). -/
def max_execution_time : Nat := 30

/-- `self.max_result_rows = 10000` (database_manager.py:37). -/
def max_result_rows : Nat := 10000

/-- `sql_query[:100] + "..." if len(sql_query) > 100 else sql_query`. -/
def query_preview (q : String) : String :=
  if pyLen q > 100 then String.mk (q.data.take 100) ++ "..." else q

/-- The metadata dict as first initialised in `execute_query`. -/
def init_meta (use_sample_data : Bool) (q : String) : QueryMeta :=
  { execution_time := 0, row_count := 0, column_count := 0, success := false,
    error_message := none,
    database_type := if use_sample_data then "SQLite" else "Azure SQL",
    query_preview := query_preview q, truncated := false }

inductive EngineResult where
  | ok (df : DataFrame)
  | error (msg : String)

/-- `DatabaseManager.execute_query` (database_manager.py:289-366).  The
validator rejection raises `ValueError("안전하지 않은 쿼리입니다")` which the
function's own `except` turns into the failed-metadata return, like any
engine error. -/
def execute_query (use_sample_data : Bool) (engine : String → EngineResult)
    (elapsed : Nat) (sql_query : String) : DataFrame × QueryMeta :=
  if validate_query_safety sql_query = false then
    (empty_df, { init_meta use_sample_data sql_query with
      execution_time := elapsed,
      error_message := some "안전하지 않은 쿼리입니다" })
  else
    match engine sql_query with
    | .error msg =>
      (empty_df, { init_meta use_sample_data sql_query with
        execution_time := elapsed, error_message := some msg })
    | .ok df =>
      if df.rows.length > max_result_rows then
        (⟨df.columns, df.rows.take max_result_rows⟩,
         { init_meta use_sample_data sql_query with
           execution_time := elapsed,
           row_count := (df.rows.take max_result_rows).length,
           column_count := df.columns.length, success := true, truncated := true })
      else
        (df, { init_meta use_sample_data sql_query with
          execution_time := elapsed, row_count := df.rows.length,
          column_count := df.columns.length, success := true, truncated := false })

/-- C4: for every query, engine behaviour and elapsed time, the returned
metadata has a non-negative execution time (equal to the recorded elapsed
time), its row count equals the number of rows of the returned table
after any truncation, and a failed execution returns an empty table. -/
theorem C4_execute_query_metadata (use_sample_data : Bool)
    (engine : String → EngineResult) (elapsed : Nat) (sql_query : String) :
    0 ≤ (execute_query use_sample_data engine elapsed sql_query).2.execution_time ∧
    (execute_query use_sample_data engine elapsed sql_query).2.execution_time
        = elapsed ∧
    (execute_query use_sample_data engine elapsed sql_query).2.row_count
        = (execute_query use_sample_data engine elapsed sql_query).1.rows.length ∧
    ((execute_query use_sample_data engine elapsed sql_query).2.success = false →
      (execute_query use_sample_data engine elapsed sql_query).1.rows = []) := by
  by_cases hval : validate_query_safety sql_query = false
  · simp [execute_query, hval, empty_df, init_meta]
  · rcases heng : engine sql_query with df | msg
    · by_cases htr : df.rows.length > max_result_rows
      · simp [execute_query, hval, heng, htr]
      · simp [execute_query, hval, heng, htr]
    · simp [execute_query, hval, heng, empty_df, init_meta]

/-- C4 witness: a failed engine call returns an empty table. -/
theorem C4_execute_query_metadata_witness :
    (execute_query false (fun _ => .error "connection reset") 1
      "SELECT * FROM PY_DEPAZ_BAS").1.rows = [] :=
  (C4_execute_query_metadata false (fun _ => .error "connection reset") 1
    "SELECT * FROM PY_DEPAZ_BAS").2.2.2 (by decide)

/-- C9: `max_execution_time` is set to 30 but `execute_query` never
consults it — the returned table, success flag and row count are
identical for every elapsed duration, including durations beyond the
limit, and a concrete query whose engine call takes 31 seconds still
completes successfully.  No wall-clock abort exists. -/
theorem C9_no_execution_timeout (use_sample_data : Bool)
    (engine : String → EngineResult) (sql_query : String) (d d' : Nat) :
    max_execution_time = 30 ∧
    (execute_query use_sample_data engine d sql_query).1
        = (execute_query use_sample_data engine d' sql_query).1 ∧
    (execute_query use_sample_data engine d sql_query).2.success
        = (execute_query use_sample_data engine d' sql_query).2.success ∧
    (execute_query use_sample_data engine d sql_query).2.row_count
        = (execute_query use_sample_data engine d' sql_query).2.row_count ∧
    (execute_query false (fun _ => .ok ⟨["test_value"], [["1"]]⟩) 31
        "SELECT * FROM PY_DEPAZ_BAS").2.success = true := by
  refine ⟨rfl, ?_, ?_, ?_, by decide⟩ <;>
  · by_cases hval : validate_query_safety sql_query = false
    · simp [execute_query, hval]
    · rcases heng : engine sql_query with df | msg
      · by_cases htr : df.rows.length > max_result_rows
        · simp [execute_query, hval, heng, htr]
        · simp [execute_query, hval, heng, htr]
      · simp [execute_query, hval, heng]

/-! ## Sample-data generation against the cloud store
(sample_data.py:60-86, 180-199, 394-548) -/

/-- Row counts of the three tables in the cloud store. -/
structure AzureTables where
  port_out : Nat
  port_in : Nat
  depaz : Nat
deriving Repr, DecidableEq

/-- `SampleDataManager._check_azure_data_count` (sample_data.py:180-199):
the TOTAL row count over the three tables. -/
def check_azure_data_count (db : AzureTables) : Nat :=
  db.port_out + db.port_in + db.depaz

/-- `SampleDataManager._generate_azure_sample_data`
(sample_data.py:394-548): inserts 50 port-out rows, 50 deposit rows and
50 port-in rows. -/
def generate_azure_sample_data (db : AzureTables) : AzureTables :=
  { port_out := db.port_out + 50, port_in := db.port_in + 50,
    depaz := db.depaz + 50 }

/-- `SampleDataManager._create_azure_database` (sample_data.py:60-86):
ensure tables exist (row counts unchanged), then generate sample data
only if the existing total count is below 50. -/
def create_azure_database (db : AzureTables) : AzureTables :=
  if check_azure_data_count db < 50 then generate_azure_sample_data db else db

/-- C6: if the existing row counts meet the minimum threshold — per table,
hence in total — invoking the generator performs no inserts; consequently
two consecutive invocations always leave the same row counts as one
(idempotence above threshold).  The code's actual check is a single
threshold of 50 on the TOTAL of the three tables. -/
theorem C6_sample_generation_idempotent :
    (∀ db : AzureTables, 50 ≤ db.port_out → 50 ≤ db.port_in → 50 ≤ db.depaz →
      create_azure_database db = db) ∧
    (∀ db : AzureTables, 50 ≤ check_azure_data_count db →
      create_azure_database db = db) ∧
    (∀ db : AzureTables,
      create_azure_database (create_azure_database db) = create_azure_database db) := by
  have htotal : ∀ db : AzureTables, 50 ≤ check_azure_data_count db →
      create_azure_database db = db := by
    intro db h
    rw [create_azure_database, if_neg (by omega)]
  refine ⟨?_, htotal, ?_⟩
  · intro db h1 h2 h3
    exact htotal db (by rw [check_azure_data_count]; omega)
  · intro db
    by_cases h : check_azure_data_count db < 50
    · have h1 : create_azure_database db = generate_azure_sample_data db := by
        rw [create_azure_database, if_pos h]
      rw [h1]
      exact htotal _ (by
        simp [check_azure_data_count, generate_azure_sample_data]
        omega)
    · have h1 : create_azure_database db = db := by
        rw [create_azure_database, if_neg h]
      rw [h1]
      exact h1

/-- C6 witness: a store seeded at exactly the threshold per table is left
unchanged, and a second invocation after seeding an empty store changes
nothing. -/
theorem C6_sample_generation_idempotent_witness :
    create_azure_database ⟨50, 50, 50⟩ = (⟨50, 50, 50⟩ : AzureTables) ∧
    create_azure_database (create_azure_database ⟨0, 0, 0⟩)
        = create_azure_database ⟨0, 0, 0⟩ :=
  ⟨C6_sample_generation_idempotent.1 ⟨50, 50, 50⟩ (by decide) (by decide) (by decide),
   C6_sample_generation_idempotent.2.2 ⟨0, 0, 0⟩⟩

/-! ## Sample-data manager mode accessors (sample_data.py:17-58, 673-685) -/

structure SampleDataManager where
  use_azure : Bool
  use_sample_data : Bool
  force_local : Bool
deriving Repr, DecidableEq

/-- `SampleDataManager.__init__` (sample_data.py:17-58): `use_azure` is
the conjunction of `not force_local`, config presence, production
readiness and a truthy connection string; `use_sample_data = not
use_azure`; if SQLAlchemy engine creation then fails, both flip to local
mode.  Net effect: `use_azure = ua && engineOk`,
`use_sample_data = !(ua && engineOk)`. -/
def sample_manager_init (force_local hasConfig productionReady connStr
    engineOk : Bool) : SampleDataManager :=
  let ua := !force_local && hasConfig && productionReady && connStr
  { use_azure := ua && engineOk,
    use_sample_data := !(ua && engineOk),
    force_local := force_local }

/-- `SampleDataManager.is_using_azure` (sample_data.py:673-675): returns
`self.use_sample_data`. -/
def is_using_azure (m : SampleDataManager) : Bool :=
  m.use_sample_data

/-- The `"type"` entry of `SampleDataManager.get_connection_info`
(sample_data.py:677-685). -/
def get_connection_info_type (m : SampleDataManager) : String :=
  if m.use_sample_data then "Azure SQL Database" else "SQLite"

/-- C10: the mode-reporting accessors return the inverse of the actual
backend — `is_using_azure` returns `use_sample_data` (true exactly when
the embedded SQLite store is in use), and the reported connection type is
"Azure SQL Database" when `use_sample_data` is true and "SQLite"
otherwise; in particular a manager actually in Azure mode reports
"SQLite". -/
theorem C10_mode_accessors_inverted (force_local hasConfig productionReady
    connStr engineOk : Bool) :
    is_using_azure (sample_manager_init force_local hasConfig productionReady
        connStr engineOk)
      = (sample_manager_init force_local hasConfig productionReady
        connStr engineOk).use_sample_data ∧
    is_using_azure (sample_manager_init force_local hasConfig productionReady
        connStr engineOk)
      = !(sample_manager_init force_local hasConfig productionReady
        connStr engineOk).use_azure ∧
    get_connection_info_type (sample_manager_init force_local hasConfig
        productionReady connStr engineOk)
      = (if (sample_manager_init force_local hasConfig productionReady
            connStr engineOk).use_sample_data
         then "Azure SQL Database" else "SQLite") ∧
    ((sample_manager_init force_local hasConfig productionReady
        connStr engineOk).use_azure = true →
      get_connection_info_type (sample_manager_init force_local hasConfig
        productionReady connStr engineOk) = "SQLite") := by
  refine ⟨rfl, rfl, rfl, ?_⟩
  intro h
  rw [get_connection_info_type]
  rw [show (sample_manager_init force_local hasConfig productionReady
      connStr engineOk).use_sample_data
    = !(sample_manager_init force_local hasConfig productionReady
      connStr engineOk).use_azure from rfl, h]
  rfl

/-- C10 witness: a manager actually connected to Azure
(`use_azure = true`) reports the SQLite connection type. -/
theorem C10_mode_accessors_inverted_witness :
    get_connection_info_type (sample_manager_init false true true true true)
      = "SQLite" :=
  (C10_mode_accessors_inverted false true true true true).2.2.2 (by decide)

end MsAiMvp
